import Mathlib

/-!
Verification of the A/B-test conversion-experiment routines: the dataset
cleaner (`src/data_wrangle.py`) and the statistical helpers
(`src/utils/helper_ab_test.py`): conversion reporting, required-sample-size
estimation, sample-size sufficiency checking, and confidence-interval
construction for a difference of two proportions.

Python floats are embedded as rationals (`ℚ`) where the computation stays in
the rationals, and as reals (`ℝ`) where the source calls transcendental
library functions (`math.sqrt`, arcsine, the standard normal quantile).  The
standard normal quantile `scipy.stats.norm.ppf` has no closed form, so every
definition that consumes it is parametrized by a function `ppf : ℝ → ℝ`;
theorems that need facts about the true quantile state them as hypotheses
(strict monotonicity on `(0,1)` and the symmetry `ppf (1-q) = -ppf q`), and
witnesses instantiate `ppf` with a concrete function satisfying them.
-/

namespace ABTest

/-- One raw observation row of the experiment dataset (`ab_data.csv`):
a user identifier, the assigned group (control or treatment), the landing
page actually shown, and the 0/1 conversion flag. -/
structure ExperimentRecord where
  user_id : Int
  group : String
  landing_page : String
  converted : Int
deriving DecidableEq, Repr

/-- The row mask of `data_wrangle.py` lines 10-12: keep a row exactly when
its group/page pairing is (control, old_page) or (treatment, new_page). -/
def validPairing (r : ExperimentRecord) : Bool :=
  (r.group == "control" && r.landing_page == "old_page") ||
    (r.group == "treatment" && r.landing_page == "new_page")

/-- The filter `df.loc[mask]` of `data_wrangle.py` line 13, keeping row
order. -/
def maskFilter (df : List ExperimentRecord) : List ExperimentRecord :=
  df.filter validPairing

/-- Embedding of `DataFrame.drop_duplicates(subset="user_id", keep="last")`
(`data_wrangle.py` line 24): a row survives exactly when no later row
carries the same `user_id`, and the surviving rows keep their original
order. -/
def drop_duplicates_keep_last : List ExperimentRecord → List ExperimentRecord
  | [] => []
  | r :: rest =>
    if rest.any (fun s => s.user_id == r.user_id) then
      drop_duplicates_keep_last rest
    else
      r :: drop_duplicates_keep_last rest

/-- The cleaned dataset `df_clean` built by `data_wrangle.py`: the pairing
mask of lines 10-13 followed by the `keep="last"` user deduplication of
line 24.  The `drop_duplicates(subset=["group", "landing_page"],
inplace=False)` call on line 7 is not assigned to anything and hence has no
effect on the data; the inspection-only lines (`value_counts`, `count`,
`nunique`, the row lookup) do not modify the frame either, so the cleaned
output is exactly this composition. -/
def df_clean (df : List ExperimentRecord) : List ExperimentRecord :=
  drop_duplicates_keep_last (maskFilter df)

/-- The abstract error kinds of spec section 7 for the statistical core:
a group exposing more than one distinct page, a zero denominator in a ratio,
and statistical parameters outside their valid domain / a non-finite effect
size. -/
inductive AbError where
  | dataIntegrity
  | divisionByZero
  | invalidParameter
deriving DecidableEq, Repr

/-- The distinct pages seen by the filtered group:
`data[data[group_col] == group_filter][page_col].unique()` of
`helper_ab_test.py` lines 62-63 (only the number of distinct values is ever
consumed). -/
def pages_seen (data : List ExperimentRecord) (group_filter : String) : List String :=
  ((data.filter (fun r => r.group == group_filter)).map (fun r => r.landing_page)).dedup

/-- Embedding of `report_conversions` (`helper_ab_test.py` lines 61-84) with
the four column-name arguments fixed to the record fields they select.
The branch for a non-singular set of pages seen (line 66) prints a
diagnostic and returns `None`, so the caller gets no report; spec sections
4.2 and 7 name that outcome `DataIntegrityError`, embedded here as
`.error .dataIntegrity`.  The division `conversions / total_users` on line
81 would raise Python's `ZeroDivisionError` for an empty group, embedded as
`.error .divisionByZero`; `conversions` is the sum and `total_users` the
count of the filtered `converted` column. -/
def report_conversions (data : List ExperimentRecord) (group_filter : String) :
    Except AbError (Int × Nat × ℚ) :=
  let df_filter := data.filter (fun r => r.group == group_filter)
  if (pages_seen data group_filter).length ≠ 1 then
    .error .dataIntegrity
  else
    let conversions := (df_filter.map (fun r => r.converted)).sum
    let total_users := df_filter.length
    if total_users = 0 then
      .error .divisionByZero
    else
      .ok (conversions, total_users, (conversions : ℚ) / (total_users : ℚ))

/-- The arcsine-transform effect size of `statsmodels`:
`proportion_effectsize(prop1, prop2) = 2*asin(sqrt(prop1)) - 2*asin(sqrt(prop2))`
(Cohen's h; note the source call site passes `prop1=baseline_rate` and
`prop2=baseline_rate + practical_significance`, so the value it produces is
the negation of the spec's `h = 2*asin(sqrt(p2)) - 2*asin(sqrt(p1))`). -/
noncomputable def proportion_effectsize (prop1 prop2 : ℝ) : ℝ :=
  2 * Real.arcsin (Real.sqrt prop1) - 2 * Real.arcsin (Real.sqrt prop2)

/-- Modelled from the spec: the repository calls
`statsmodels.stats.api.NormalIndPower().solve_power(effect_size, power,
alpha, ratio)`, whose code is not part of this repository.  Spec section 4.3
describes it as solving the two-sided normal power equation for the
per-group sample size; its solution is modelled by the standard closed form
for two independent samples with `nobs2 = ratio * nobs1`,
`nobs1 = (1 + 1/ratio) * ((z_(1-alpha/2) + z_power)^2) / effect_size^2`,
the factor `(1 + 1/ratio)` being forced by the repository's own pinned
regression value (`tests/fixtures/fixture_helper_ab_test.py`:
`get_sample_size(0.1204) = 17210.118424055283`, which is twice the
factor-free formula's value of about `8605.08`). -/
noncomputable def solve_power (ppf : ℝ → ℝ) (effect_size : ℝ) (power alpha ratio : ℚ) : ℝ :=
  (1 + 1 / (ratio : ℝ)) * (ppf (1 - (alpha : ℝ) / 2) + ppf (power : ℝ)) ^ 2
    / effect_size ^ 2

/-- Embedding of `get_sample_size` (`helper_ab_test.py` lines 125-135).
The source performs no explicit validation; when `baseline_rate` or
`baseline_rate + practical_significance` leaves the closed unit interval,
`sqrt`/`arcsin` leave their real domains and the floating-point libraries
produce a non-finite effect size, the failure spec section 7 names
`InvalidParameterError` — embedded as the guard below.  Otherwise the value
is `solve_power` applied to the `proportion_effectsize` of the two rates,
with `power=sensitivity`, `alpha=confidence_level`, `ratio=1` as at the call
site (lines 126-131). -/
noncomputable def get_sample_size (ppf : ℝ → ℝ)
    (baseline_rate practical_significance confidence_level sensitivity : ℚ) :
    Except AbError ℝ :=
  if baseline_rate < 0 ∨ 1 < baseline_rate ∨
      baseline_rate + practical_significance < 0 ∨
      1 < baseline_rate + practical_significance then
    .error .invalidParameter
  else
    .ok (solve_power ppf
      (proportion_effectsize (baseline_rate : ℝ)
        ((baseline_rate : ℝ) + (practical_significance : ℝ)))
      sensitivity confidence_level 1)

/-- Sample-size formula as spec section 4.3 literally states it:
`n = ((z_(1-alpha/2) + z_power)^2) / h^2` with
`h = 2*asin(sqrt(p2)) - 2*asin(sqrt(p1))` and no additional factor for two
independent groups.  Stated from the spec's words, for comparison against
the embedding of the source. -/
noncomputable def specSampleSizeFormula (ppf : ℝ → ℝ)
    (baseline_rate practical_significance confidence_level sensitivity : ℚ) : ℝ :=
  (ppf (1 - (confidence_level : ℝ) / 2) + ppf (sensitivity : ℝ)) ^ 2
    / (2 * Real.arcsin (Real.sqrt ((baseline_rate : ℝ) + (practical_significance : ℝ)))
        - 2 * Real.arcsin (Real.sqrt (baseline_rate : ℝ))) ^ 2

/-- Whether a fallible computation produced a numeric result. -/
def returnsValue {α : Type} : Except AbError α → Bool
  | .ok _ => true
  | .error _ => false

/-- A Python runtime value appearing in the sample-size check: an `int` or a
`float` (floats are exact rationals). -/
inductive PyVal where
  | int : Int → PyVal
  | float : ℚ → PyVal
deriving DecidableEq, Repr

/-- Python's bitwise `&`: defined on a pair of `int`s, a `TypeError` on any
`float` operand. -/
def pyBitwiseAnd : PyVal → PyVal → Except String PyVal
  | .int a, .int b => .ok (.int (Int.land a b))
  | _, _ => .error "TypeError: unsupported operand type(s) for &"

/-- Numeric value of a Python `int` or `float`, for comparisons. -/
def PyVal.toRat : PyVal → ℚ
  | .int n => (n : ℚ)
  | .float q => q

/-- Python's `>=` on numbers. -/
def pyGe (a b : PyVal) : Bool := b.toRat ≤ a.toRat

/-- Python's `<` on numbers. -/
def pyLt (a b : PyVal) : Bool := a.toRat < b.toRat

/-- The four sufficiency verdicts of spec section 4.4. -/
inductive SufficiencyVerdict where
  | bothSufficient
  | treatmentInsufficient
  | controlInsufficient
  | bothInsufficient
deriving DecidableEq, Repr

/-- Embedding of the classification body of `check_sample_sizes`
(`helper_ab_test.py` lines 162-177).  `sample_size` is the float returned by
`get_sample_size` (the classification depends only on that value and on its
being a `float`).  In Python, `&` binds tighter than the comparison
operators, so each guard such as
`total_users_control >= sample_size & total_users_treatment >= sample_size`
parses as the chained comparison
`total_users_control >= (sample_size & total_users_treatment) >= sample_size`:
the middle operand `sample_size & total_users_treatment` is evaluated first
(once), and only then the two comparisons are conjoined.  Each verdict
branch is embedded below exactly under that parse; an exception anywhere
propagates (the `except Exception: raise` wrapper is the identity). -/
def check_sample_sizes (total_users_control total_users_treatment : Int)
    (sample_size : ℚ) : Except String SufficiencyVerdict := do
  let m1 ← pyBitwiseAnd (.float sample_size) (.int total_users_treatment)
  if pyGe (.int total_users_control) m1 && pyGe m1 (.float sample_size) then
    return .bothSufficient
  else
    let m2 ← pyBitwiseAnd (.float sample_size) (.int total_users_treatment)
    if pyGe (.int total_users_control) m2 && pyLt m2 (.float sample_size) then
      return .treatmentInsufficient
    else
      let m3 ← pyBitwiseAnd (.float sample_size) (.int total_users_treatment)
      if pyLt (.int total_users_control) m3 && pyGe m3 (.float sample_size) then
        return .controlInsufficient
      else
        return .bothInsufficient

/-- The critical value computed by `get_ab_test_ci`
(`helper_ab_test.py` line 232):
`z_score = abs(st.norm.ppf(q=(1 - confidence_level) / 2))` — note the
quantile argument is `(1 - confidence_level) / 2`. -/
noncomputable def ci_z_score (ppf : ℝ → ℝ) (confidence_level : ℚ) : ℝ :=
  |ppf ((1 - (confidence_level : ℝ)) / 2)|

/-- Embedding of `get_ab_test_ci` (`helper_ab_test.py` lines 216-238):
conversion rates of both groups, their difference, the pooled Wald variance,
`sd = sqrt(variance)`, the critical value `ci_z_score`, and the pair
`(mean - z*sd, mean + z*sd)`. -/
noncomputable def get_ab_test_ci (ppf : ℝ → ℝ)
    (conversions_control conversions_treatment : ℕ)
    (total_users_control total_users_treatment : ℕ)
    (confidence_level : ℚ) : ℝ × ℝ :=
  let conversion_rate_control : ℝ :=
    (conversions_control : ℝ) / (total_users_control : ℝ)
  let conversion_rate_treatment : ℝ :=
    (conversions_treatment : ℝ) / (total_users_treatment : ℝ)
  let conversion_mean := conversion_rate_treatment - conversion_rate_control
  let variance :=
    conversion_rate_treatment * (1 - conversion_rate_treatment)
        / (total_users_treatment : ℝ)
      + conversion_rate_control * (1 - conversion_rate_control)
        / (total_users_control : ℝ)
  let sd := Real.sqrt variance
  let z_score := ci_z_score ppf confidence_level
  (conversion_mean - z_score * sd, conversion_mean + z_score * sd)

/-- A concrete strictly monotone, symmetric quantile-shaped function used to
instantiate the abstract `ppf` parameter in closed witnesses and
counterexamples: `q - 1/2` is strictly monotone on `(0,1)` and satisfies
`probitLin (1-q) = -(probitLin q)`, the two properties of the standard
normal quantile that the theorems below consume. -/
noncomputable def probitLin : ℝ → ℝ := fun q => q - 1 / 2

/-- Every row surviving `drop_duplicates_keep_last` comes from the input. -/
theorem mem_of_mem_drop_duplicates_keep_last {x : ExperimentRecord} :
    ∀ {l : List ExperimentRecord}, x ∈ drop_duplicates_keep_last l → x ∈ l := by
  intro l
  induction l with
  | nil => simp [drop_duplicates_keep_last]
  | cons r rest ih =>
    simp only [drop_duplicates_keep_last]
    split
    · intro h
      exact List.mem_cons_of_mem r (ih h)
    · intro h
      rcases List.mem_cons.mp h with h | h
      · exact h ▸ List.mem_cons_self r rest
      · exact List.mem_cons_of_mem r (ih h)

/-- After `drop_duplicates_keep_last`, user identifiers are pairwise
distinct. -/
theorem nodup_user_id_drop_duplicates_keep_last :
    ∀ l : List ExperimentRecord,
      ((drop_duplicates_keep_last l).map (fun r => r.user_id)).Nodup := by
  intro l
  induction l with
  | nil => simp [drop_duplicates_keep_last]
  | cons r rest ih =>
    simp only [drop_duplicates_keep_last]
    split
    · exact ih
    · next hany =>
      rw [List.map_cons, List.nodup_cons]
      refine ⟨?_, ih⟩
      intro hmem
      rcases List.mem_map.mp hmem with ⟨s, hs, hus⟩
      have hsrest : s ∈ rest := mem_of_mem_drop_duplicates_keep_last hs
      have : rest.any (fun s => s.user_id == r.user_id) = true :=
        List.any_eq_true.mpr ⟨s, hsrest, by simp [hus]⟩
      exact absurd this hany

/-- Rows of `drop_duplicates_keep_last l` carrying a given user identifier
are exactly the last such row of `l` (in the original order): the
`keep="last"` policy. -/
theorem filter_user_id_drop_duplicates_keep_last (u : Int) :
    ∀ l : List ExperimentRecord,
      (drop_duplicates_keep_last l).filter (fun r => r.user_id == u) =
        ((l.filter (fun r => r.user_id == u)).getLast?).toList := by
  intro l
  induction l with
  | nil => rfl
  | cons r rest ih =>
    simp only [drop_duplicates_keep_last]
    split
    · next hany =>
      rw [ih, List.filter_cons]
      by_cases hu : (r.user_id == u) = true
      · rw [if_pos hu]
        have hne : rest.filter (fun r => r.user_id == u) ≠ [] := by
          rcases List.any_eq_true.mp hany with ⟨s, hs, hsu⟩
          have hru : r.user_id = u := by simpa using hu
          have hsu2 : (s.user_id == u) = true := by
            have hsr : s.user_id = r.user_id := by simpa using hsu
            simp [hsr, hru]
          intro hn
          exact (List.filter_eq_nil_iff.mp hn s hs) hsu2
        rcases List.exists_cons_of_ne_nil hne with ⟨y, ys, hxs⟩
        rw [hxs, List.getLast?_cons_cons]
      · rw [if_neg hu]
    · next hany =>
      rw [List.filter_cons, List.filter_cons]
      by_cases hu : (r.user_id == u) = true
      · rw [if_pos hu, if_pos hu, ih]
        have hnil : rest.filter (fun r => r.user_id == u) = [] := by
          apply List.filter_eq_nil_iff.mpr
          intro s hs hsu
          apply hany
          apply List.any_eq_true.mpr
          have hru : r.user_id = u := by simpa using hu
          have hsu2 : s.user_id = u := by simpa using hsu
          exact ⟨s, hs, by simp [hsu2, hru]⟩
        rw [hnil]
        rfl
      · rw [if_neg hu, if_neg hu, ih]

/-- Concrete dataset whose control group saw two distinct pages. -/
def sampleTwoPages : List ExperimentRecord :=
  [⟨1, "control", "old_page", 0⟩, ⟨2, "control", "new_page", 1⟩]

/-- Concrete dataset with no control rows at all. -/
def sampleTreatmentOnly : List ExperimentRecord :=
  [⟨7, "treatment", "new_page", 1⟩]

/-- Concrete raw dataset with one contaminated row (treatment seeing
old_page) and one duplicated user whose later row differs in `converted`. -/
def sampleRaw : List ExperimentRecord :=
  [⟨1, "control", "old_page", 0⟩,
   ⟨2, "treatment", "old_page", 1⟩,
   ⟨1, "control", "old_page", 1⟩,
   ⟨3, "treatment", "new_page", 1⟩]

/-- C1: the claim says `check_sample_sizes` classifies every pair of group
sizes against the required size from `get_sample_size` into one of four
verdicts using `>=`, never failing.  The code instead always raises: because
`&` binds tighter than the comparisons, every guard evaluates
`sample_size & total_users_treatment` with `sample_size` a float, a
`TypeError`, so no verdict is ever produced for any input. -/
theorem check_sample_sizes_raises_type_error
    (total_users_control total_users_treatment : Int) (sample_size : ℚ) :
    check_sample_sizes total_users_control total_users_treatment sample_size =
      .error "TypeError: unsupported operand type(s) for &" := rfl

/-- C2: whenever the records selected by the group filter expose more than
one distinct landing page, `report_conversions` signals the data-integrity
failure and produces no report. -/
theorem report_conversions_multipage_data_integrity
    (data : List ExperimentRecord) (group_filter : String)
    (h : 1 < (pages_seen data group_filter).length) :
    report_conversions data group_filter = .error .dataIntegrity := by
  unfold report_conversions
  rw [if_pos (by omega)]

/-- Witness for C2 at a concrete two-page dataset. -/
theorem report_conversions_multipage_data_integrity_witness :
    report_conversions sampleTwoPages "control" = .error .dataIntegrity :=
  report_conversions_multipage_data_integrity sampleTwoPages "control" (by decide)

/-- C6 (amended): when the group filter selects no records, the set of pages
seen is empty, so `report_conversions` takes the data-integrity branch and
returns no report; the `conversions / total_users` division is never
reached, so no division-by-zero failure occurs. -/
theorem report_conversions_empty_group_integrity
    (data : List ExperimentRecord) (group_filter : String)
    (h : data.filter (fun r => r.group == group_filter) = []) :
    report_conversions data group_filter = .error .dataIntegrity ∧
      report_conversions data group_filter ≠ .error .divisionByZero := by
  have hp : pages_seen data group_filter = [] := by
    unfold pages_seen
    rw [h]
    rfl
  have hmain : report_conversions data group_filter = .error .dataIntegrity := by
    unfold report_conversions
    rw [hp]
    rfl
  refine ⟨hmain, ?_⟩
  rw [hmain]
  intro hcontra
  exact AbError.noConfusion (Except.error.inj hcontra)

/-- Counterexample for C6 as stated: on a dataset with zero matching control
records, the outcome is the data-integrity failure, not a division-by-zero
failure. -/
theorem report_conversions_empty_group_not_divzero :
    report_conversions sampleTreatmentOnly "control" ≠ .error .divisionByZero := by
  intro hcontra
  have hmain : report_conversions sampleTreatmentOnly "control" =
      .error .dataIntegrity := rfl
  rw [hmain] at hcontra
  exact AbError.noConfusion (Except.error.inj hcontra)

/-- Witness for the amended C6 at a concrete empty-group input. -/
theorem report_conversions_empty_group_integrity_witness :
    report_conversions sampleTreatmentOnly "control" = .error .dataIntegrity ∧
      report_conversions sampleTreatmentOnly "control" ≠ .error .divisionByZero :=
  report_conversions_empty_group_integrity sampleTreatmentOnly "control" (by decide)

/-- C7 (amended): `get_sample_size` signals the invalid-parameter failure
exactly when `baseline_rate` or `baseline_rate + practical_significance`
leaves the closed unit interval `[0,1]` (where the effect size becomes
non-finite); at the endpoints — outside the open interval `(0,1)` the claim
names — a numeric value is returned instead. -/
theorem get_sample_size_invalid_iff_outside_closed_unit (ppf : ℝ → ℝ)
    (baseline_rate practical_significance confidence_level sensitivity : ℚ) :
    get_sample_size ppf baseline_rate practical_significance
        confidence_level sensitivity = .error .invalidParameter ↔
      (baseline_rate < 0 ∨ 1 < baseline_rate ∨
        baseline_rate + practical_significance < 0 ∨
        1 < baseline_rate + practical_significance) := by
  unfold get_sample_size
  split
  · next hcond => exact iff_of_true rfl hcond
  · next hcond => exact iff_of_false (fun hh => Except.noConfusion hh) hcond

/-- Counterexample for C7 as stated: `baseline_rate = 0` lies outside the
open interval `(0,1)`, yet `get_sample_size` returns a numeric value and no
invalid-parameter failure. -/
theorem get_sample_size_boundary_counterexample :
    returnsValue (get_sample_size probitLin 0 (1/100) (1/20) (4/5)) = true ∧
      get_sample_size probitLin 0 (1/100) (1/20) (4/5) ≠
        .error .invalidParameter := by
  have hval : returnsValue (get_sample_size probitLin 0 (1/100) (1/20) (4/5)) =
      true := by
    unfold get_sample_size
    rw [if_neg (by norm_num)]
    rfl
  refine ⟨hval, ?_⟩
  intro hcontra
  rw [hcontra] at hval
  exact Bool.noConfusion hval

/-- C9: on valid inputs (conversions bounded by positive group totals,
confidence level in `(0,1)`), the interval returned by `get_ab_test_ci` is
ordered: the lower bound never exceeds the upper bound, whatever the
quantile function is, since the critical value is an absolute value and the
standard deviation a square root. -/
theorem get_ab_test_ci_lower_le_upper (ppf : ℝ → ℝ)
    (conversions_control conversions_treatment : ℕ)
    (total_users_control total_users_treatment : ℕ) (confidence_level : ℚ)
    (hcc : conversions_control ≤ total_users_control)
    (hct : conversions_treatment ≤ total_users_treatment)
    (htc : 0 < total_users_control) (htt : 0 < total_users_treatment)
    (hcl0 : 0 < confidence_level) (hcl1 : confidence_level < 1) :
    (get_ab_test_ci ppf conversions_control conversions_treatment
        total_users_control total_users_treatment confidence_level).1 ≤
      (get_ab_test_ci ppf conversions_control conversions_treatment
        total_users_control total_users_treatment confidence_level).2 := by
  have hz : 0 ≤ ci_z_score ppf confidence_level := by
    unfold ci_z_score
    exact abs_nonneg _
  simp only [get_ab_test_ci]
  have hsd : 0 ≤ Real.sqrt
      ((conversions_treatment : ℝ) / (total_users_treatment : ℝ)
          * (1 - (conversions_treatment : ℝ) / (total_users_treatment : ℝ))
          / (total_users_treatment : ℝ)
        + (conversions_control : ℝ) / (total_users_control : ℝ)
          * (1 - (conversions_control : ℝ) / (total_users_control : ℝ))
          / (total_users_control : ℝ)) := Real.sqrt_nonneg _
  nlinarith [mul_nonneg hz hsd]

/-- Witness for C9 at a concrete valid input. -/
theorem get_ab_test_ci_lower_le_upper_witness :
    (get_ab_test_ci probitLin 1 1 3 3 (1/20)).1 ≤
      (get_ab_test_ci probitLin 1 1 3 3 (1/20)).2 :=
  get_ab_test_ci_lower_le_upper probitLin 1 1 3 3 (1/20)
    (by decide) (by decide) (by decide) (by decide) (by norm_num) (by norm_num)

/-- C10: the interval returned by `get_ab_test_ci` is symmetric about the
observed difference of conversion rates: its two bounds sum to twice
`conversions_treatment/total_users_treatment -
conversions_control/total_users_control`. -/
theorem get_ab_test_ci_symmetric_about_mean (ppf : ℝ → ℝ)
    (conversions_control conversions_treatment : ℕ)
    (total_users_control total_users_treatment : ℕ) (confidence_level : ℚ)
    (htc : 0 < total_users_control) (htt : 0 < total_users_treatment) :
    (get_ab_test_ci ppf conversions_control conversions_treatment
        total_users_control total_users_treatment confidence_level).1 +
      (get_ab_test_ci ppf conversions_control conversions_treatment
        total_users_control total_users_treatment confidence_level).2 =
      2 * ((conversions_treatment : ℝ) / (total_users_treatment : ℝ)
        - (conversions_control : ℝ) / (total_users_control : ℝ)) := by
  simp only [get_ab_test_ci]
  ring

/-- Witness for C10 at a concrete valid input. -/
theorem get_ab_test_ci_symmetric_about_mean_witness :
    (get_ab_test_ci probitLin 1 2 4 5 (1/20)).1 +
      (get_ab_test_ci probitLin 1 2 4 5 (1/20)).2 =
      2 * (((2 : ℕ) : ℝ) / ((5 : ℕ) : ℝ) - ((1 : ℕ) : ℝ) / ((4 : ℕ) : ℝ)) :=
  get_ab_test_ci_symmetric_about_mean probitLin 1 2 4 5 (1/20)
    (by decide) (by decide)

/-- C3: the claim says the critical value is
`z = |inverse_standard_normal_cdf(1 - confidence_level/2)|` (about `1.96` at
the default `0.05`).  The code instead evaluates the quantile at
`(1 - confidence_level)/2` (`helper_ab_test.py` line 232).  For any strictly
monotone quantile function with the standard normal symmetry
`ppf (1-q) = -ppf q`, and any confidence level other than `1/2`, the two
critical values differ; at the default `0.05` the code's value corresponds
to the `0.525` quantile (about `0.063` for the standard normal), not the
`0.975` quantile (about `1.96`). -/
theorem ci_z_score_quantile_divergence (ppf : ℝ → ℝ) (confidence_level : ℚ)
    (hmono : StrictMonoOn ppf (Set.Ioo 0 1))
    (hsym : ∀ q ∈ Set.Ioo (0:ℝ) 1, ppf (1 - q) = -ppf q)
    (h0 : 0 < confidence_level) (h1 : confidence_level < 1)
    (hne : confidence_level ≠ 1/2) :
    ci_z_score ppf confidence_level ≠
      |ppf (1 - (confidence_level : ℝ) / 2)| := by
  have hc0 : (0:ℝ) < (confidence_level : ℝ) := by exact_mod_cast h0
  have hc1 : (confidence_level : ℝ) < 1 := by exact_mod_cast h1
  set c : ℝ := (confidence_level : ℝ) with hcdef
  have hhalf : (1:ℝ)/2 ∈ Set.Ioo (0:ℝ) 1 := by norm_num
  have hmem1 : (1 + c)/2 ∈ Set.Ioo (0:ℝ) 1 := ⟨by linarith, by linarith⟩
  have hmem2 : 1 - c/2 ∈ Set.Ioo (0:ℝ) 1 := ⟨by linarith, by linarith⟩
  have hz : ppf (1/2) = 0 := by
    have hs := hsym (1/2) hhalf
    norm_num at hs
    linarith
  have hp1 : 0 < ppf ((1 + c)/2) := by
    have := hmono hhalf hmem1 (by linarith)
    rwa [hz] at this
  have hp2 : 0 < ppf (1 - c/2) := by
    have := hmono hhalf hmem2 (by linarith)
    rwa [hz] at this
  have hkey : ppf ((1 - c)/2) = -ppf ((1 + c)/2) := by
    have hs := hsym ((1 + c)/2) hmem1
    have harg : 1 - (1 + c)/2 = (1 - c)/2 := by ring
    rwa [harg] at hs
  intro hcontra
  unfold ci_z_score at hcontra
  rw [← hcdef, hkey, abs_neg, abs_of_pos hp1, abs_of_pos hp2] at hcontra
  have heq := hmono.injOn hmem1 hmem2 hcontra
  have : c = 1/2 := by linarith
  apply hne
  have : (confidence_level : ℝ) = ((1/2 : ℚ) : ℝ) := by
    rw [hcdef] at this
    push_cast
    linarith
  exact_mod_cast this

/-- Witness for C3 with a concrete strictly monotone symmetric quantile
function at the default confidence level. -/
theorem ci_z_score_quantile_divergence_witness :
    ci_z_score probitLin (1/20) ≠ |probitLin (1 - ((1/20 : ℚ) : ℝ) / 2)| :=
  ci_z_score_quantile_divergence probitLin (1/20)
    (fun x _ y _ hxy => by simp only [probitLin]; linarith)
    (fun q _ => by simp only [probitLin]; ring)
    (by norm_num) (by norm_num) (by norm_num)

/-- On in-domain parameters, `get_sample_size` evaluates to twice the
quotient of the squared z-sum by the squared Cohen effect size (in the
spec's orientation `2*asin(sqrt(p2)) - 2*asin(sqrt(p1))`): the call site's
reversed argument order only negates the effect size, which the square
cancels, and `ratio = 1` turns the factor `1 + 1/ratio` into `2`. -/
theorem get_sample_size_eval (ppf : ℝ → ℝ)
    (baseline_rate practical_significance confidence_level sensitivity : ℚ)
    (h : ¬(baseline_rate < 0 ∨ 1 < baseline_rate ∨
        baseline_rate + practical_significance < 0 ∨
        1 < baseline_rate + practical_significance)) :
    get_sample_size ppf baseline_rate practical_significance
        confidence_level sensitivity =
      .ok (2 * (ppf (1 - (confidence_level : ℝ) / 2) + ppf (sensitivity : ℝ)) ^ 2
        / (2 * Real.arcsin (Real.sqrt ((baseline_rate : ℝ) + (practical_significance : ℝ)))
            - 2 * Real.arcsin (Real.sqrt (baseline_rate : ℝ))) ^ 2) := by
  unfold get_sample_size
  rw [if_neg h]
  congr 1
  unfold solve_power proportion_effectsize
  push_cast
  ring

/-- C4 (amended): `get_sample_size` returns
`(1 + 1/ratio) * ((z_(1-alpha/2) + z_power)^2) / h^2` with `ratio = 1`,
i.e. twice the spec's factor-free formula — the two-independent-groups
factor is present (consistent with the repository's pinned regression value
`17210.118424055283`, about twice the factor-free `8605.08`). -/
theorem get_sample_size_two_group_factor (ppf : ℝ → ℝ)
    (baseline_rate practical_significance confidence_level sensitivity : ℚ)
    (h : ¬(baseline_rate < 0 ∨ 1 < baseline_rate ∨
        baseline_rate + practical_significance < 0 ∨
        1 < baseline_rate + practical_significance)) :
    get_sample_size ppf baseline_rate practical_significance
        confidence_level sensitivity =
      .ok (2 * specSampleSizeFormula ppf baseline_rate practical_significance
        confidence_level sensitivity) := by
  rw [get_sample_size_eval ppf baseline_rate practical_significance
    confidence_level sensitivity h]
  congr 1
  unfold specSampleSizeFormula
  ring

/-- Witness for the amended C4 at the repository's own baseline rate and
default parameters. -/
theorem get_sample_size_two_group_factor_witness :
    get_sample_size probitLin (1204/10000) (1/100) (1/20) (4/5) =
      .ok (2 * specSampleSizeFormula probitLin (1204/10000) (1/100) (1/20) (4/5)) :=
  get_sample_size_two_group_factor probitLin (1204/10000) (1/100) (1/20) (4/5)
    (by norm_num)

/-- Counterexample for C4 as stated: at the repository's own baseline rate
`0.1204` with default parameters, the value returned by `get_sample_size` is
not the spec's factor-free formula — the quotient is provably nonzero (the
z-sum of the witness quantile is `0.775` and the effect size is nonzero
because arcsine and square root are strictly monotone), so doubling it
changes it. -/
theorem get_sample_size_spec_formula_counterexample :
    get_sample_size probitLin (1204/10000) (1/100) (1/20) (4/5) ≠
      .ok (specSampleSizeFormula probitLin (1204/10000) (1/100) (1/20) (4/5)) := by
  rw [get_sample_size_eval probitLin (1204/10000) (1/100) (1/20) (4/5) (by norm_num)]
  intro hcontra
  have heq := Except.ok.inj hcontra
  unfold specSampleSizeFormula at heq
  set S : ℝ := probitLin (1 - ((1/20 : ℚ) : ℝ) / 2) + probitLin ((4/5 : ℚ) : ℝ) with hSdef
  set H : ℝ := 2 * Real.arcsin (Real.sqrt (((1204/10000 : ℚ) : ℝ) + ((1/100 : ℚ) : ℝ)))
      - 2 * Real.arcsin (Real.sqrt ((1204/10000 : ℚ) : ℝ)) with hHdef
  have hS : S = 31/40 := by
    rw [hSdef]
    unfold probitLin
    push_cast
    ring
  have hsum : ((1204/10000 : ℚ) : ℝ) + ((1/100 : ℚ) : ℝ) = 1304/10000 := by
    push_cast
    ring
  have hbase : ((1204/10000 : ℚ) : ℝ) = 1204/10000 := by push_cast; ring
  have hsqrt : Real.sqrt ((1204:ℝ)/10000) < Real.sqrt ((1304:ℝ)/10000) :=
    Real.sqrt_lt_sqrt (by norm_num) (by norm_num)
  have hmem1 : Real.sqrt ((1204:ℝ)/10000) ∈ Set.Icc (-1:ℝ) 1 :=
    ⟨le_trans (by norm_num) (Real.sqrt_nonneg _), Real.sqrt_le_one.mpr (by norm_num)⟩
  have hmem2 : Real.sqrt ((1304:ℝ)/10000) ∈ Set.Icc (-1:ℝ) 1 :=
    ⟨le_trans (by norm_num) (Real.sqrt_nonneg _), Real.sqrt_le_one.mpr (by norm_num)⟩
  have harcsin := Real.strictMonoOn_arcsin hmem1 hmem2 hsqrt
  have hH : 0 < H := by
    rw [hHdef, hsum, hbase]
    linarith
  have hpos : 0 < S ^ 2 / H ^ 2 := by
    apply div_pos
    · rw [hS]; norm_num
    · exact pow_pos hH 2
  rw [mul_div_assoc] at heq
  linarith

/-- C8: the cleaned dataset satisfies all three invariants — every
`user_id` appears exactly once; every surviving record has a valid
group/page pairing (control sees old_page, treatment sees new_page); and for
each user identifier, the surviving record is exactly the last-occurring
record with that identifier among the rows that pass the pairing filter, in
the original order. -/
theorem df_clean_invariants (df : List ExperimentRecord) :
    ((df_clean df).map (fun r => r.user_id)).Nodup ∧
      (∀ r ∈ df_clean df,
        (r.group = "control" → r.landing_page = "old_page") ∧
        (r.group = "treatment" → r.landing_page = "new_page")) ∧
      (∀ u : Int, (df_clean df).filter (fun r => r.user_id == u) =
        (((maskFilter df).filter (fun r => r.user_id == u)).getLast?).toList) := by
  refine ⟨nodup_user_id_drop_duplicates_keep_last (maskFilter df), ?_, ?_⟩
  · intro r hr
    have hmask : r ∈ maskFilter df := mem_of_mem_drop_duplicates_keep_last hr
    have hvp : validPairing r = true := (List.mem_filter.mp hmask).2
    unfold validPairing at hvp
    simp only [Bool.or_eq_true, Bool.and_eq_true, beq_iff_eq] at hvp
    constructor
    · intro hg
      rcases hvp with ⟨_, hp⟩ | ⟨hgt, _⟩
      · exact hp
      · rw [hg] at hgt
        exact absurd hgt (by decide)
    · intro hg
      rcases hvp with ⟨hgc, _⟩ | ⟨_, hp⟩
      · rw [hg] at hgc
        exact absurd hgc (by decide)
      · exact hp
  · intro u
    exact filter_user_id_drop_duplicates_keep_last u (maskFilter df)

/-- Witness for C8 at a concrete raw dataset with a contaminated row and a
duplicated user: the surviving record for user 1 is the later of its two
valid rows. -/
theorem df_clean_invariants_witness :
    ((df_clean sampleRaw).map (fun r => r.user_id)).Nodup ∧
      (df_clean sampleRaw).filter (fun r => r.user_id == 1) =
        [⟨1, "control", "old_page", 1⟩] :=
  ⟨(df_clean_invariants sampleRaw).1,
    ((df_clean_invariants sampleRaw).2.2 1).trans (by decide)⟩

end ABTest
